import Mathlib

/-
Verification development for the clay playback orchestration core.

The definitions below are a shallow embedding of the Python source files
src/clay/player.py (class Queue and the libVLC class Player) and
src/clay/playback/mpv.py (class MPVPlayer).  Python dynamic typing and
exceptions are made explicit: values that Python code can set to either an
int, None or a Track object are modelled by the Cursor sum type, and
operations that can raise are given a PyResult or an explicit error
component.  Side effects on the backend, the event bus, the logger and the
notification area are modelled as an ordered trace of Event values.
-/

namespace ClaySpec

/-- Kinds of Python exceptions that the embedded code can raise. -/
inductive PyError where
  | typeError : PyError
  | indexError : PyError
  | valueError : PyError
  | zeroDivisionError : PyError
  deriving DecidableEq, Repr

/-- Result of a Python call: a value, or a raised exception. -/
inductive PyResult (α : Type) where
  | ok : α → PyResult α
  | exn : PyError → PyResult α
  deriving DecidableEq, Repr

/-- A track handle; identity is a stable id, matching Python object identity
for distinct Track instances. -/
structure Track where
  id : Nat
  deriving DecidableEq, Repr

/-- The value stored in the Python attribute Queue.current_track.  The source
stores either None, an int index, or (in one defective branch of Queue.next,
line 83 of player.py) a Track object. -/
inductive Cursor where
  | unset : Cursor
  | idx : Int → Cursor
  | trackRef : Track → Cursor
  deriving DecidableEq, Repr

/-- State of the Queue class of src/clay/player.py. -/
structure Queue where
  random : Bool
  repeat_one : Bool
  tracks : List Track
  current_track : Cursor
  deriving DecidableEq, Repr

/-- The Queue state produced by the Python constructor. -/
def queue0 : Queue := ⟨false, false, [], Cursor.unset⟩

/-- Python list indexing xs[i] for an int i: supports negative indices and
raises IndexError when the index is out of range. -/
def pyIndex (xs : List Track) (i : Int) : PyResult Track :=
  let j : Int := if i < 0 then i + xs.length else i
  if 0 ≤ j then
    match xs.get? j.toNat with
    | some t => PyResult.ok t
    | none => PyResult.exn PyError.indexError
  else PyResult.exn PyError.indexError

/-- Queue.load (player.py lines 32 to 41): replace the track list with a copy
and set the cursor, defaulting it to 0 for a non-empty list. -/
def Queue.load (q : Queue) (tracks : List Track) (current : Option Int) : Queue :=
  match current with
  | some i => { q with tracks := tracks, current_track := Cursor.idx i }
  | none =>
    if tracks.isEmpty then { q with tracks := tracks, current_track := Cursor.unset }
    else { q with tracks := tracks, current_track := Cursor.idx 0 }

/-- Queue.append (player.py lines 43 to 47). -/
def Queue.append (q : Queue) (t : Track) : Queue :=
  { q with tracks := q.tracks ++ [t] }

/-- Index of the first occurrence of a track in a list, as computed by
Python list.index; none when absent (Python: the membership test fails). -/
def findIndex : List Track → Track → Option Nat
  | [], _ => none
  | x :: xs, t => if x = t then some 0 else (findIndex xs t).map (· + 1)

/-- Queue.remove (player.py lines 49 to 59).  The second component records an
exception raised by the comparison index < current_track when the cursor is
None or a Track object; the track removal has already happened at that point,
so the returned Queue is the mutated state in every case. -/
def Queue.remove (q : Queue) (t : Track) : Queue × Option PyError :=
  match findIndex q.tracks t with
  | none => (q, none)
  | some index =>
    let tracks1 := q.tracks.eraseIdx index
    match q.current_track with
    | Cursor.idx c =>
      if (index : Int) < c then
        ({ q with tracks := tracks1, current_track := Cursor.idx (c - 1) }, none)
      else
        ({ q with tracks := tracks1 }, none)
    | _ => ({ q with tracks := tracks1 }, some PyError.typeError)

/-- Queue.get_current_track (player.py lines 61 to 67): returns None when the
cursor is unset, otherwise evaluates self.tracks[self.current_track], which
raises IndexError for an out-of-range index and TypeError when the cursor
holds a Track object. -/
def Queue.get_current_track (q : Queue) : PyResult (Option Track) :=
  match q.current_track with
  | Cursor.unset => PyResult.ok none
  | Cursor.idx c =>
    match pyIndex q.tracks c with
    | PyResult.ok t => PyResult.ok (some t)
    | PyResult.exn e => PyResult.exn e
  | Cursor.trackRef _ => PyResult.exn PyError.typeError

/-- Body of Queue.next after the unset-cursor branch (player.py lines 85 to
96).  The rand argument stands for the value produced by randint(0, len - 1);
when the track list is empty that Python call raises ValueError before any
assignment.  Advancing an int cursor adds one and wraps to 0 when
cursor + 1 + 1 is at least the length; adding one to a None or Track cursor
raises TypeError. -/
def Queue.nextBody (q : Queue) (force : Bool) (rand : Int) :
    PyResult (Option Track) × Queue :=
  if q.repeat_one && !force then (q.get_current_track, q)
  else if q.random then
    if q.tracks.length = 0 then (PyResult.exn PyError.valueError, q)
    else
      let q1 := { q with current_track := Cursor.idx rand }
      (q1.get_current_track, q1)
  else
    match q.current_track with
    | Cursor.idx c =>
      let c1 := c + 1
      let c2 : Int := if c1 + 1 ≥ (q.tracks.length : Int) then 0 else c1
      let q1 := { q with current_track := Cursor.idx c2 }
      (q1.get_current_track, q1)
    | _ => (PyResult.exn PyError.typeError, q)

/-- Queue.next (player.py lines 69 to 96).  When the cursor is unset the code
returns None for an empty list and otherwise assigns the first Track object
itself, not the index 0, to the cursor (line 83) before falling through to
the selection logic. -/
def Queue.next (q : Queue) (force : Bool) (rand : Int) :
    PyResult (Option Track) × Queue :=
  match q.current_track with
  | Cursor.unset =>
    match q.tracks with
    | [] => (PyResult.ok none, q)
    | t :: _ => Queue.nextBody { q with current_track := Cursor.trackRef t } force rand
  | _ => Queue.nextBody q force rand

/-- Queue.get_tracks (player.py lines 98 to 102). -/
def Queue.get_tracks (q : Queue) : List Track := q.tracks

/-- The cursor invariant claimed by the spec: when set, the cursor is an int
index with 0 <= cursor < length (which forces the list to be non-empty, so a
set cursor on an empty list is also a violation); a stored Track object is a
violation. -/
def Queue.inv (q : Queue) : Bool :=
  match q.current_track with
  | Cursor.unset => true
  | Cursor.idx i => decide (0 ≤ i) && decide (i < (q.tracks.length : Int))
  | Cursor.trackRef _ => false

/-- Observable side effects of the Player and MPVPlayer code, in the order
the source performs them.  URLs, cache paths and error payloads are
identified by natural numbers. -/
inductive Event where
  | broadcastState : Event
  | trackChanged : Track → Event
  | resolverInvoked : Track → Event
  | downloadResolver : Track → Event
  | backendLoadAndPlay : Nat → Event
  | logError : Event
  | notifyError : Event
  | osdNotify : Track → Event
  deriving DecidableEq, Repr

/-- Player._play (player.py lines 306 to 316): read the current track; return
silently if there is none; otherwise invoke track.get_url with _play_ready as
the callback, then broadcast state, then fire track_changed. -/
def Player_play (q : Queue) : PyResult (List Event) :=
  match q.get_current_track with
  | PyResult.exn e => PyResult.exn e
  | PyResult.ok none => PyResult.ok []
  | PyResult.ok (some track) =>
    PyResult.ok [Event.resolverInvoked track, Event.broadcastState,
      Event.trackChanged track]

/-- Player._play_ready (player.py lines 318 to 328): on a resolver error,
produce one notification and stop; otherwise instruct libVLC to load and
play the url.  The handler reads no player state and performs no
current-track comparison. -/
def Player_play_ready (url : Nat) (error : Option Nat) (track : Track) :
    List Event :=
  match error, track with
  | some _, _ => [Event.notifyError]
  | none, _ => [Event.backendLoadAndPlay url]

/-- The MPVPlayer state that mpv.py reads and writes: the queue inherited
from AbstractPlayer and the private loading flag. -/
structure MPVPlayerState where
  queue : Queue
  is_loading : Bool
  deriving DecidableEq, Repr

/-- The external inputs read by MPVPlayer.play: the download_tracks setting,
whether the track file is cached, and the cached file path when one exists. -/
structure CacheEnv where
  download_tracks : Bool
  is_cached : Bool
  cached_path : Option Nat
  deriving DecidableEq, Repr

/-- MPVPlayer._play_ready (mpv.py lines 129 to 151): clear the loading flag
first; on a resolver error, produce one log entry and stop; otherwise tell
mpv to play the url and notify the OSD.  The handler performs no
current-track comparison. -/
def MPVPlayer_play_ready (st : MPVPlayerState) (url : Nat) (error : Option Nat)
    (track : Track) : MPVPlayerState × List Event :=
  let st1 := { st with is_loading := false }
  match error, track with
  | some _, _ => (st1, [Event.logError])
  | none, t => (st1, [Event.backendLoadAndPlay url, Event.osdNotify t])

/-- MPVPlayer.play (mpv.py lines 103 to 127): read the current track; return
silently if there is none; set the loading flag, broadcast state and fire
track_changed; then either call _play_ready directly on a cached path, start
a download resolution, or start a streaming resolution with _play_ready as
the callback. -/
def MPVPlayer_play (st : MPVPlayerState) (env : CacheEnv) :
    PyResult (MPVPlayerState × List Event) :=
  match st.queue.get_current_track with
  | PyResult.exn e => PyResult.exn e
  | PyResult.ok none => PyResult.ok (st, [])
  | PyResult.ok (some track) =>
    let st1 := { st with is_loading := true }
    let pre : List Event := [Event.broadcastState, Event.trackChanged track]
    if env.download_tracks || env.is_cached then
      match env.cached_path with
      | none => PyResult.ok (st1, pre ++ [Event.downloadResolver track])
      | some path =>
        let r := MPVPlayer_play_ready st1 path none track
        PyResult.ok (r.1, pre ++ r.2)
    else
      PyResult.ok (st1, pre ++ [Event.resolverInvoked track])

/-- MPVPlayer.is_playing (mpv.py lines 160 to 165): not (pause or loading). -/
def MPVPlayer_is_playing (pause : Bool) (loading : Bool) : Bool :=
  !(pause || loading)

/-- MPVPlayer.get_play_progress (mpv.py lines 173 to 180): playback_time
divided by duration inside a handler that catches only TypeError, which
Python raises when either operand is None.  A known zero duration raises
ZeroDivisionError, which is not caught. -/
def MPVPlayer_get_play_progress (playback_time duration : Option ℚ) :
    PyResult ℚ :=
  match playback_time, duration with
  | some p, some d =>
    if d = 0 then PyResult.exn PyError.zeroDivisionError else PyResult.ok (p / d)
  | _, _ => PyResult.ok 0

/-- Position of the first event satisfying a test within a trace. -/
def eventPos : List Event → (Event → Bool) → Option Nat
  | [], _ => none
  | e :: es, p => if p e then some 0 else (eventPos es p).map (· + 1)

/-- True when some event satisfying p occurs strictly before the first event
satisfying q in the trace. -/
def firedBefore (evs : List Event) (p q : Event → Bool) : Bool :=
  match eventPos evs p, eventPos evs q with
  | some i, some j => decide (i < j)
  | _, _ => false

/-- Test for the track-changed bus event. -/
def isTrackChanged : Event → Bool
  | Event.trackChanged _ => true
  | _ => false

/-- Test for an invocation of the streaming URL resolver. -/
def isResolver : Event → Bool
  | Event.resolverInvoked _ => true
  | _ => false

/-- Test for a backend load-and-play instruction. -/
def isBackendPlay : Event → Bool
  | Event.backendLoadAndPlay _ => true
  | _ => false

/-- Concrete tracks used by the closed theorems below. -/
def tA : Track := ⟨0⟩

/-- Second concrete track. -/
def tB : Track := ⟨1⟩

/-- Third concrete track. -/
def tC : Track := ⟨2⟩

/-- Removing an index that is in range shortens the list by one. -/
theorem length_eraseIdx_lt (xs : List Track) (i : Nat) (h : i < xs.length) :
    (xs.eraseIdx i).length = xs.length - 1 := by
  induction xs generalizing i with
  | nil => simp at h
  | cons x xs ih =>
    cases i with
    | zero => simp [List.eraseIdx]
    | succ n =>
      simp only [List.eraseIdx, List.length_cons]
      have hn : n < xs.length := by simpa using h
      rw [ih n hn]
      omega

/-- An in-range position of a list holds some element. -/
theorem get?_of_lt (xs : List Track) (n : Nat) (h : n < xs.length) :
    ∃ t, xs[n]? = some t := by
  induction xs generalizing n with
  | nil => simp at h
  | cons x xs ih =>
    cases n with
    | zero => exact ⟨x, by simp⟩
    | succ m => simpa using ih m (by simpa using h)

/-- Python indexing succeeds on an in-range non-negative index. -/
theorem pyIndex_ok (xs : List Track) (c : Int) (h0 : 0 ≤ c)
    (h1 : c < (xs.length : Int)) : ∃ t, pyIndex xs c = PyResult.ok t := by
  have hc : ¬ c < 0 := by omega
  have hlt : c.toNat < xs.length := by omega
  obtain ⟨t, ht⟩ := get?_of_lt xs c.toNat hlt
  exact ⟨t, by simp [pyIndex, hc, h0, ht]⟩

/-- The index returned by findIndex is in range. -/
theorem findIndex_lt_length (xs : List Track) (t : Track) (i : Nat)
    (h : findIndex xs t = some i) : i < xs.length := by
  induction xs generalizing i with
  | nil => simp [findIndex] at h
  | cons x xs ih =>
    by_cases hx : x = t
    · simp [findIndex, hx] at h
      simp only [List.length_cons]
      omega
    · simp only [findIndex, hx, if_false, if_neg hx] at h
      obtain ⟨j, hj, hji⟩ := Option.map_eq_some'.mp h
      have := ih j hj
      simp only [List.length_cons]
      omega

/-- Guard for Queue.remove: true when the call does not remove the current
track from its final position (either the track is absent, the cursor does
not sit on the removed index, or that index is not the last one). -/
def safeRemove (q : Queue) (t : Track) : Bool :=
  match findIndex q.tracks t with
  | none => true
  | some i =>
    match q.current_track with
    | Cursor.idx c =>
      decide (c ≠ (i : Int)) || decide ((i : Int) + 1 < (q.tracks.length : Int))
    | _ => true

/-- A 3-track queue A, B, C with the cursor at index 0, linear mode. -/
def q3 : Queue := ⟨false, false, [tA, tB, tC], Cursor.idx 0⟩

/-- Claim C1: with random and repeat_one false and the cursor at 0 of a
3-track queue A, B, C, the claim says three next(false) calls return B, C, A.
The code instead returns B, then A, then B: the wrap test at line 93 of
player.py compares cursor + 1 + 1 with the length and therefore wraps one
track early, so index 2 is never selected by linear advance. -/
theorem C1_linear_advance_eval :
    ((q3.next false 0).1 = PyResult.ok (some tB)
      ∧ (q3.next false 0).2.current_track = Cursor.idx 1)
    ∧ (((q3.next false 0).2.next false 0).1 = PyResult.ok (some tA)
      ∧ ((q3.next false 0).2.next false 0).2.current_track = Cursor.idx 0)
    ∧ ((((q3.next false 0).2.next false 0).2.next false 0).1
        = PyResult.ok (some tB)) := by decide

/-- Claim C2: with an unset cursor the claim says next on an empty queue
returns null (which holds) and on a non-empty queue sets the cursor to the
index 0 and returns the track at index 0.  The code at line 83 of player.py
instead assigns the Track object tracks[0] to the cursor, after which the
linear advance raises TypeError; the track at index 0 is never returned. -/
theorem C2_unset_cursor_eval :
    ((queue0.next false 0).1 = PyResult.ok none
      ∧ (queue0.next false 0).2 = queue0)
    ∧ (((⟨false, false, [tA], Cursor.unset⟩ : Queue).next false 0).1
        = PyResult.exn PyError.typeError
      ∧ ((⟨false, false, [tA], Cursor.unset⟩ : Queue).next false 0).2.current_track
        = Cursor.trackRef tA)
    ∧ (((⟨false, true, [tA], Cursor.unset⟩ : Queue).next false 0).1
        = PyResult.exn PyError.typeError) := by decide

/-- Claim C3: the claim says no Queue operation ever raises and that
get_current_track returns null for an out-of-range cursor.  After loading a
one-track queue and removing the current track, the cursor is the still-set
index 0 over an empty list and get_current_track evaluates tracks[0], which
raises IndexError (player.py line 67); remove itself raises TypeError when
the cursor is None, from the comparison index < current_track at line 58. -/
theorem C3_queue_raises_eval :
    (((queue0.load [tA] none).remove tA).1.get_current_track
      = PyResult.exn PyError.indexError)
    ∧ (((⟨false, false, [tA], Cursor.unset⟩ : Queue).remove tA).2
      = some PyError.typeError) := by decide

/-- Claim C4: the claim says a resolution completing for a track that is no
longer current performs no backend action.  Both completion handlers read no
current-track identity at all: with the queue positioned on track B, a stale
completion for track A still instructs the backend to load and play the
stale url, in MPVPlayer._play_ready (mpv.py line 149) and in
Player._play_ready (player.py lines 327 to 328). -/
theorem C4_stale_resolution_eval :
    ((⟨⟨false, false, [tB], Cursor.idx 0⟩, true⟩ : MPVPlayerState).queue.get_current_track
      = PyResult.ok (some tB))
    ∧ tA ≠ tB
    ∧ ((MPVPlayer_play_ready ⟨⟨false, false, [tB], Cursor.idx 0⟩, true⟩ 7 none tA).2
      = [Event.backendLoadAndPlay 7, Event.osdNotify tA])
    ∧ (Player_play_ready 7 none tA = [Event.backendLoadAndPlay 7]) := by decide

/-- Claim C5 counterexample: removing the current track when it is the last
element leaves the cursor set at index 0 over an empty sequence, violating
the cursor invariant; and next from an unset cursor on a non-empty queue
stores a Track object in the cursor, also violating it. -/
theorem C5_counterexample :
    (((queue0.load [tA] none).remove tA).1.inv = false)
    ∧ (((⟨false, false, [tA, tB], Cursor.unset⟩ : Queue).next false 0).2.inv
      = false) := by decide

/-- Claim C6 counterexample: in Player._play of player.py the resolver is
invoked (line 314) strictly before the track-changed event is fired
(line 316), so the claimed ordering fails for the libVLC player. -/
theorem C6_counterexample :
    Player_play q3 = PyResult.ok
      [Event.resolverInvoked tA, Event.broadcastState, Event.trackChanged tA]
    ∧ firedBefore
        [Event.resolverInvoked tA, Event.broadcastState, Event.trackChanged tA]
        isTrackChanged isResolver = false
    ∧ firedBefore
        [Event.resolverInvoked tA, Event.broadcastState, Event.trackChanged tA]
        isResolver isTrackChanged = true := by decide

/-- Claim C9 counterexample: a reported elapsed time of 1 with a reported
duration of 0 raises ZeroDivisionError instead of returning 0, because the
handler at mpv.py lines 177 to 180 catches only TypeError; and elapsed 3
with duration 2 returns 3 / 2, which is outside [0, 1]. -/
theorem C9_counterexample :
    MPVPlayer_get_play_progress (some 1) (some 0)
      = PyResult.exn PyError.zeroDivisionError
    ∧ MPVPlayer_get_play_progress (some 3) (some 2) = PyResult.ok (3 / 2)
    ∧ ¬ ((3 : ℚ) / 2 ≤ 1) := by
  refine ⟨?_, ?_, ?_⟩
  · simp [MPVPlayer_get_play_progress]
  · norm_num [MPVPlayer_get_play_progress]
  · norm_num

/-- Claim C5 amended: load with no index or with an in-range index and
append always preserve the cursor invariant; next preserves it when the
cursor is already a set index (with the random draw in range when the random
flag is on) and when the cursor is unset on an empty queue; remove preserves
it unless it removes the current track from the final position, in which
case the cursor is left equal to the new sequence length, out of range, and
remains set even when the sequence becomes empty (and next from an unset
cursor on a non-empty queue stores a track reference, also breaking it). -/
theorem C5_invariant_preservation :
    (∀ q ts, (Queue.load q ts none).inv = true)
    ∧ (∀ q ts i, 0 ≤ i → i < (ts.length : Int) →
        (Queue.load q ts (some i)).inv = true)
    ∧ (∀ q t, q.inv = true → (Queue.append q t).inv = true)
    ∧ (∀ q force rand c, q.inv = true → q.current_track = Cursor.idx c →
        (q.random = true → 0 ≤ rand ∧ rand < (q.tracks.length : Int)) →
        ((Queue.next q force rand).2).inv = true)
    ∧ (∀ q force rand, q.current_track = Cursor.unset → q.tracks = [] →
        (Queue.next q force rand).2 = q)
    ∧ (∀ q t, q.inv = true → safeRemove q t = true →
        ((Queue.remove q t).1).inv = true) := by
  refine ⟨?_, ?_, ?_, ?_, ?_, ?_⟩
  · intro q ts
    cases ts with
    | nil => simp [Queue.load, Queue.inv]
    | cons x xs => simp [Queue.load, Queue.inv]
  · intro q ts i h0 h1
    simp only [Queue.load, Queue.inv, Bool.and_eq_true, decide_eq_true_eq]
    exact ⟨h0, h1⟩
  · intro q t hq
    rcases q with ⟨ran, rep, tr, cur⟩
    cases cur with
    | unset => simp [Queue.append, Queue.inv]
    | idx c =>
      simp only [Queue.inv, Bool.and_eq_true, decide_eq_true_eq] at hq
      simp only [Queue.append, Queue.inv, Bool.and_eq_true, decide_eq_true_eq,
        List.length_append, List.length_cons]
      push_cast
      omega
    | trackRef t0 => simp [Queue.inv] at hq
  · intro q force rand c hq hc hr
    rcases q with ⟨ran, rep, tr, cur⟩
    cases hc
    simp only [Queue.inv, Bool.and_eq_true, decide_eq_true_eq] at hq
    have hr' : ran = true → 0 ≤ rand ∧ rand < (tr.length : Int) := hr
    cases ran <;> cases rep <;> cases force <;>
      simp [Queue.next, Queue.nextBody, Queue.inv] <;>
      (try split_ifs) <;>
      (try simp [Queue.inv]) <;>
      first
        | omega
        | (rcases hr' rfl with ⟨hb1, hb2⟩; omega)
  · intro q force rand hc ht
    rcases q with ⟨ran, rep, tr, cur⟩
    cases hc
    cases ht
    rfl
  · intro q t hq hs
    rcases hfi : findIndex q.tracks t with _ | i
    · simp [Queue.remove, hfi, hq]
    · have hi : i < q.tracks.length := findIndex_lt_length _ _ _ hfi
      have hlen : (q.tracks.eraseIdx i).length = q.tracks.length - 1 :=
        length_eraseIdx_lt _ _ hi
      rcases hcur : q.current_track with _ | c | tr0
      · simp [Queue.remove, hfi, hcur, Queue.inv]
      · simp only [Queue.inv, hcur, Bool.and_eq_true, decide_eq_true_eq] at hq
        have hsafe : c ≠ (i : Int) ∨ (i : Int) + 1 < (q.tracks.length : Int) := by
          simp only [safeRemove, hfi, hcur] at hs
          simpa [Bool.or_eq_true, decide_eq_true_eq] using hs
        by_cases hlt : (i : Int) < c
        · simp only [Queue.remove, hfi, hcur, if_pos hlt]
          simp only [Queue.inv, Bool.and_eq_true, decide_eq_true_eq, hlen]
          omega
        · simp only [Queue.remove, hfi, hcur, if_neg hlt]
          simp only [Queue.inv, Bool.and_eq_true, decide_eq_true_eq, hlen]
          omega
      · simp [Queue.inv, hcur] at hq

/-- Claim C5 witness: removing a non-current track from a two-track queue
keeps the invariant. -/
theorem C5_invariant_preservation_witness :
    ((Queue.remove ⟨false, false, [tA, tB], Cursor.idx 1⟩ tA).1).inv = true :=
  C5_invariant_preservation.2.2.2.2.2 ⟨false, false, [tA, tB], Cursor.idx 1⟩ tA
    (by decide) (by decide)

/-- Claim C6 amended: in the MPV player streaming path, track-changed is
fired strictly before the resolver is invoked; in the libVLC player the
resolver is invoked strictly before track-changed is fired; in both players
the backend load-and-play instruction is issued only by the resolution
completion handler and only when the resolution succeeded, so it always
happens strictly after a successful resolution. -/
theorem C6_play_ordering :
    (∀ st env track, st.queue.get_current_track = PyResult.ok (some track) →
      env.download_tracks = false → env.is_cached = false →
      MPVPlayer_play st env = PyResult.ok ({ st with is_loading := true },
        [Event.broadcastState, Event.trackChanged track,
          Event.resolverInvoked track])
      ∧ firedBefore [Event.broadcastState, Event.trackChanged track,
          Event.resolverInvoked track] isTrackChanged isResolver = true)
    ∧ (∀ q track, q.get_current_track = PyResult.ok (some track) →
      Player_play q = PyResult.ok [Event.resolverInvoked track,
        Event.broadcastState, Event.trackChanged track]
      ∧ firedBefore [Event.resolverInvoked track, Event.broadcastState,
          Event.trackChanged track] isResolver isTrackChanged = true)
    ∧ (∀ url error track u,
        Event.backendLoadAndPlay u ∈ Player_play_ready url error track →
        error = none)
    ∧ (∀ st url error track u,
        Event.backendLoadAndPlay u ∈ (MPVPlayer_play_ready st url error track).2 →
        error = none) := by
  refine ⟨?_, ?_, ?_, ?_⟩
  · intro st env track hcur hdl hca
    rcases env with ⟨dl, ca, pa⟩
    cases hdl
    cases hca
    constructor
    · simp [MPVPlayer_play, hcur]
    · simp [firedBefore, eventPos, isTrackChanged, isResolver]
  · intro q track hcur
    constructor
    · simp [Player_play, hcur]
    · simp [firedBefore, eventPos, isTrackChanged, isResolver]
  · intro url error track u h
    rcases error with _ | e
    · rfl
    · simp [Player_play_ready] at h
  · intro st url error track u h
    rcases error with _ | e
    · rfl
    · simp [MPVPlayer_play_ready] at h

/-- Claim C6 witness: the amended ordering at a concrete MPV state on a
3-track queue with the streaming settings. -/
theorem C6_play_ordering_witness :
    MPVPlayer_play ⟨q3, false⟩ ⟨false, false, none⟩ = PyResult.ok
      (⟨q3, true⟩,
        [Event.broadcastState, Event.trackChanged tA, Event.resolverInvoked tA])
    ∧ firedBefore [Event.broadcastState, Event.trackChanged tA,
        Event.resolverInvoked tA] isTrackChanged isResolver = true :=
  C6_play_ordering.1 ⟨q3, false⟩ ⟨false, false, none⟩ tA (by decide) rfl rfl

/-- Claim C7: on a resolver completion carrying an error, MPVPlayer clears
the loading flag, produces exactly the one log entry and no backend
instruction, and touches no queue state; the libVLC handler produces exactly
the one notification and no backend instruction. -/
theorem C7_resolver_error_handling (st : MPVPlayerState) (url e : Nat)
    (track : Track) :
    (MPVPlayer_play_ready st url (some e) track).1.queue = st.queue
    ∧ (MPVPlayer_play_ready st url (some e) track).1.is_loading = false
    ∧ (MPVPlayer_play_ready st url (some e) track).2 = [Event.logError]
    ∧ Player_play_ready url (some e) track = [Event.notifyError] :=
  ⟨rfl, rfl, rfl, rfl⟩

/-- Claim C7 witness: the error-path behavior at a concrete loading MPV
state over a 3-track queue. -/
theorem C7_resolver_error_handling_witness :
    (MPVPlayer_play_ready ⟨q3, true⟩ 7 (some 5) tA).1.queue = q3
    ∧ (MPVPlayer_play_ready ⟨q3, true⟩ 7 (some 5) tA).1.is_loading = false
    ∧ (MPVPlayer_play_ready ⟨q3, true⟩ 7 (some 5) tA).2 = [Event.logError]
    ∧ Player_play_ready 7 (some 5) tA = [Event.notifyError] :=
  C7_resolver_error_handling ⟨q3, true⟩ 7 5 tA

/-- Claim C8: with repeat_one true and a valid set cursor, next(false)
returns exactly what get_current_track returns, with the whole queue state
unchanged and the current track defined; next(true) still performs the
selection advance, setting the cursor to the random draw in random mode and
to the early-wrapping linear successor otherwise. -/
theorem C8_repeat_one_behavior (q : Queue) (c rand : Int)
    (h1 : q.repeat_one = true) (h2 : q.current_track = Cursor.idx c)
    (h3 : 0 ≤ c) (h4 : c < (q.tracks.length : Int)) :
    (Queue.next q false rand).1 = q.get_current_track
    ∧ (Queue.next q false rand).2 = q
    ∧ (∃ t, q.get_current_track = PyResult.ok (some t))
    ∧ (Queue.next q true rand).2.current_track =
        (if q.random = true then Cursor.idx rand
         else Cursor.idx (if c + 1 + 1 ≥ (q.tracks.length : Int) then 0
           else c + 1)) := by
  rcases q with ⟨ran, rep, tr, cur⟩
  cases h2
  cases h1
  refine ⟨?_, ?_, ?_, ?_⟩
  · rfl
  · rfl
  · obtain ⟨t, ht⟩ := pyIndex_ok tr c h3 h4
    exact ⟨t, by simp [Queue.get_current_track, ht]⟩
  · have h4' : c < (tr.length : Int) := h4
    have hlen : ¬ tr.length = 0 := by omega
    cases ran
    · simp [Queue.next, Queue.nextBody]
    · simp [Queue.next, Queue.nextBody, hlen]

/-- Claim C8 witness: the repeat-one behavior at a concrete 3-track queue
positioned at index 0. -/
theorem C8_repeat_one_witness :
    (Queue.next ⟨false, true, [tA, tB, tC], Cursor.idx 0⟩ false 0).1
      = Queue.get_current_track ⟨false, true, [tA, tB, tC], Cursor.idx 0⟩
    ∧ (Queue.next ⟨false, true, [tA, tB, tC], Cursor.idx 0⟩ false 0).2
      = ⟨false, true, [tA, tB, tC], Cursor.idx 0⟩
    ∧ (∃ t, Queue.get_current_track ⟨false, true, [tA, tB, tC], Cursor.idx 0⟩
        = PyResult.ok (some t))
    ∧ (Queue.next ⟨false, true, [tA, tB, tC], Cursor.idx 0⟩ true 0).2.current_track
      = (if (⟨false, true, [tA, tB, tC], Cursor.idx 0⟩ : Queue).random = true
          then Cursor.idx 0
          else Cursor.idx (if 0 + 1 + 1 ≥
            (((⟨false, true, [tA, tB, tC], Cursor.idx 0⟩ : Queue).tracks.length : Int))
            then 0 else 0 + 1)) :=
  C8_repeat_one_behavior ⟨false, true, [tA, tB, tC], Cursor.idx 0⟩ 0 0 rfl rfl
    (by decide) (by decide)

/-- Claim C9 amended: get_play_progress returns elapsed divided by duration,
unclamped, when both are known and the duration is nonzero; returns 0 when
either value is unknown, the TypeError being caught; and raises an uncaught
ZeroDivisionError when both are known and the duration is exactly zero. -/
theorem C9_progress_behavior (p d : ℚ) (hd : d ≠ 0) :
    MPVPlayer_get_play_progress (some p) (some d) = PyResult.ok (p / d)
    ∧ MPVPlayer_get_play_progress none (some d) = PyResult.ok 0
    ∧ MPVPlayer_get_play_progress (some p) none = PyResult.ok 0
    ∧ MPVPlayer_get_play_progress none none = PyResult.ok 0
    ∧ MPVPlayer_get_play_progress (some p) (some 0)
      = PyResult.exn PyError.zeroDivisionError := by
  refine ⟨?_, rfl, rfl, rfl, ?_⟩
  · simp [MPVPlayer_get_play_progress, hd]
  · simp [MPVPlayer_get_play_progress]

/-- Claim C9 witness: the amended progress behavior at elapsed 1 and
duration 2. -/
theorem C9_progress_witness :
    MPVPlayer_get_play_progress (some 1) (some 2) = PyResult.ok (1 / 2)
    ∧ MPVPlayer_get_play_progress none (some 2) = PyResult.ok 0
    ∧ MPVPlayer_get_play_progress (some 1) none = PyResult.ok 0
    ∧ MPVPlayer_get_play_progress none none = PyResult.ok 0
    ∧ MPVPlayer_get_play_progress (some 1) (some 0)
      = PyResult.exn PyError.zeroDivisionError :=
  C9_progress_behavior 1 2 (by norm_num)

/-- Claim C10: is_playing is true only when the backend reports not paused
and the loading flag is clear, and a set loading flag always reports not
playing. -/
theorem C10_loading_never_playing (pause loading : Bool) :
    (MPVPlayer_is_playing pause loading = true →
      pause = false ∧ loading = false)
    ∧ (loading = true → MPVPlayer_is_playing pause loading = false) := by
  cases pause <;> cases loading <;> simp [MPVPlayer_is_playing]

/-- Claim C10 witness: a loading player with an unpaused backend reports not
playing. -/
theorem C10_loading_never_playing_witness :
    MPVPlayer_is_playing false true = false :=
  (C10_loading_never_playing false true).2 rfl

end ClaySpec
